import Mathlib

/-!
Verification of the RESTerville synchronization/ETL core against its
natural-language specification.

The definitions below are a shallow embedding of the Python sources:

* `lib/esri_to_geojson.py` — `esri_to_geojson` (geometry translator,
  native → interchange direction);
* `lib/pg_to_agol.py` — `convert_geojson_to_esri_geometry` (interchange →
  native direction) and `prepare_features` (reverse-transfer edit builder);
* `lib/agol_to_pg.py` — the `download_features` pagination loop and the
  `transfer_attachments` bucket reconciliation;
* `lib/sql.py` — `truncate_or_delete_table`;
* `lib/backup.py` — `upload_with_retry`, `sanitize_name`,
  `get_last_modified_date`, the per-item skip rule of `download_as_fgdb`,
  and `delete_old_archives`.

External effects (HTTP fetches, database statements, bucket operations)
are modelled as explicit inputs (response functions, behaviour records)
and outputs (traces of issued statements, uploads, updates, deletions),
so every definition is executable and every run of the embedded code is a
pure value.
-/

/-- Python `datetime` values compare componentwise (lexicographically by
year, month, day, hour, minute, second); this structure mirrors that.
Dates parsed from archive file names carry a zero time of day. -/
structure DateTime where
  year : Nat
  month : Nat
  day : Nat
  hour : Nat
  minute : Nat
  second : Nat
deriving DecidableEq, Repr

/-- Python `datetime.__lt__`: lexicographic comparison of the components. -/
def DateTime.ltb (a b : DateTime) : Bool :=
  if a.year ≠ b.year then decide (a.year < b.year)
  else if a.month ≠ b.month then decide (a.month < b.month)
  else if a.day ≠ b.day then decide (a.day < b.day)
  else if a.hour ≠ b.hour then decide (a.hour < b.hour)
  else if a.minute ≠ b.minute then decide (a.minute < b.minute)
  else decide (a.second < b.second)

/-- Python `datetime.__le__`. -/
def DateTime.leb (a b : DateTime) : Bool :=
  a.ltb b || a == b

/-- `datetime.isoformat()` zero-padding of a two-digit component. -/
def iso_pad2 (n : Nat) : String :=
  if n < 10 then "0" ++ toString n else toString n

/-- `datetime.isoformat()` zero-padding of the year. -/
def iso_pad4 (n : Nat) : String :=
  if n < 10 then "000" ++ toString n
  else if n < 100 then "00" ++ toString n
  else if n < 1000 then "0" ++ toString n
  else toString n

/-- `datetime.isoformat()` (microseconds are zero in this model). -/
def DateTime.isoformat (d : DateTime) : String :=
  iso_pad4 d.year ++ "-" ++ iso_pad2 d.month ++ "-" ++ iso_pad2 d.day ++ "T"
    ++ iso_pad2 d.hour ++ ":" ++ iso_pad2 d.minute ++ ":" ++ iso_pad2 d.second

/-! String primitives of the Python code (`str.upper`, `str.lower`,
`str.split`, `str.replace`, `str.endswith`, `in`, `int(...)` digits),
implemented over the character list so that every one evaluates. -/

/-- Python `s.upper()` (the strings involved are ASCII). -/
def py_upper (s : String) : String :=
  String.mk (s.data.map Char.toUpper)

/-- Python `s.lower()` (the strings involved are ASCII). -/
def py_lower (s : String) : String :=
  String.mk (s.data.map Char.toLower)

/-- Python `needle in haystack` on strings (substring test). -/
def char_list_sub (needle : List Char) : List Char → Bool
  | [] => needle.isEmpty
  | c :: rest => needle.isPrefixOf (c :: rest) || char_list_sub needle rest

/-- Python `needle in hay` for strings. -/
def py_in_str (needle hay : String) : Bool :=
  char_list_sub needle.data hay.data

/-- Python `s.split(sep)` for a one-character separator: every occurrence
splits, empty parts are kept. -/
def split_char_aux (sep : Char) : List Char → List Char → List String
  | [], acc => [String.mk acc.reverse]
  | c :: rest, acc =>
    if c = sep then String.mk acc.reverse :: split_char_aux sep rest []
    else split_char_aux sep rest (c :: acc)

/-- Python `s.split(sep)` for a one-character separator. -/
def py_split (sep : Char) (s : String) : List String :=
  split_char_aux sep s.data []

/-- Python `s.replace(pat, repl)` on character lists: every (non-empty,
leftmost, non-overlapping) occurrence of `pat` is replaced.  Structural
recursion on a fuel bounded by the haystack's length (each step consumes
at least one character), so the function evaluates in the kernel. -/
def replace_sub (pat repl : List Char) : Nat → List Char → List Char
  | 0, l => l
  | _ + 1, [] => []
  | fuel + 1, c :: rest =>
    if pat ≠ [] ∧ pat.isPrefixOf (c :: rest) then
      repl ++ replace_sub pat repl fuel (rest.drop (pat.length - 1))
    else c :: replace_sub pat repl fuel rest

/-- Python `s.replace(pat, repl)`. -/
def py_replace (s pat repl : String) : String :=
  String.mk (replace_sub pat.data repl.data s.data.length s.data)

/-- Python `s.endswith(suffix)`. -/
def py_endswith (s suffix : String) : Bool :=
  suffix.data.isSuffixOf s.data

/-- `int(s)` on a plain digit string (as `strptime` reads day and year
fields): `none` unless the string is non-empty and all digits. -/
def py_digits_to_nat (s : String) : Option Nat :=
  if s.data ≠ [] ∧ s.data.all Char.isDigit then
    some (s.data.foldl (fun n c => n * 10 + (c.toNat - 48)) 0)
  else none

/-- Untyped JSON-like values as the Python code passes them around:
numbers (coordinate scalars, modelled as integers since the code never
computes with them), strings, arrays, and `datetime` objects (which
`prepare_features` special-cases with `isinstance`). -/
inductive JVal where
  | num (n : Int)
  | str (s : String)
  | arr (xs : List JVal)
  | dtm (d : DateTime)

/-- An ESRI-JSON geometry as the four structural shapes the translator
distinguishes by key: `{x, y}`, `{points}`, `{paths}`, `{rings}`.
The entries of `points`/`paths`/`rings` are untyped values, exactly as the
Python code copies them through without inspection. -/
inductive EsriGeom where
  | point (x y : Int)
  | multipoint (points : List JVal)
  | polyline (paths : List JVal)
  | polygon (rings : List JVal)

/-- A GeoJSON geometry object `{type, coordinates}`. -/
structure GeoGeometry where
  type : String
  coordinates : JVal

/-- The placeholder geometry `{"type": "", "coordinates": []}` that
`esri_to_geojson` builds for every feature before (possibly) overwriting
it; it survives untouched when the input feature has no geometry. -/
def empty_geometry : GeoGeometry :=
  ⟨"", .arr []⟩

/-- An input ESRI feature: `attributes` and `geometry` are `Option`s
because the Python dict may lack either key (`feature.get("attributes", {})`,
`feature.get("geometry")`); a falsy geometry value is modelled as `none`. -/
structure EsriFeature where
  attributes : Option (List (String × JVal))
  geometry : Option EsriGeom

/-- An ESRI-JSON document as `esri_to_geojson` reads it: the `features`
key may be absent (`esri_json.get("features", [])`). -/
structure EsriDoc where
  features : Option (List EsriFeature)

/-- A GeoJSON output feature. The code always assigns the `geometry` key,
so `esri_to_geojson` only ever produces `some _`; the `Option` records
key presence as in a Python dict. -/
structure GeoFeature where
  type : String
  properties : List (String × JVal)
  geometry : Option GeoGeometry

/-- A GeoJSON FeatureCollection document. -/
structure GeoDoc where
  type : String
  features : List GeoFeature

/-- The per-geometry branch of `esri_to_geojson` (lib/esri_to_geojson.py,
lines 40–67): each branch overwrites the placeholder's `type` and
`coordinates`.  A single path becomes a LineString, several paths a
MultiLineString; a single ring becomes a Polygon whose coordinates are the
whole `rings` list, several rings a MultiPolygon of single-ring polygons. -/
def esri_geometry_to_geojson : EsriGeom → GeoGeometry
  | .point x y => ⟨"Point", .arr [.num x, .num y]⟩
  | .multipoint points => ⟨"MultiPoint", .arr points⟩
  | .polyline paths =>
    match paths with
    | [p] => ⟨"LineString", p⟩
    | ps => ⟨"MultiLineString", .arr ps⟩
  | .polygon rings =>
    match rings with
    | [r] => ⟨"Polygon", .arr [r]⟩
    | rs => ⟨"MultiPolygon", .arr (rs.map (fun ring => .arr [ring]))⟩

/-- The per-feature body of `esri_to_geojson`'s loop: properties are the
input's attributes (`{}` when absent), the geometry key is always present,
holding the placeholder when the input carries no geometry. -/
def esri_feature_to_geojson (feature : EsriFeature) : GeoFeature :=
  { type := "Feature"
    properties := feature.attributes.getD []
    geometry := some (match feature.geometry with
      | none => empty_geometry
      | some geom => esri_geometry_to_geojson geom) }

/-- `esri_to_geojson` (lib/esri_to_geojson.py, lines 20–71). -/
def esri_to_geojson (esri_json : EsriDoc) : GeoDoc :=
  { type := "FeatureCollection"
    features := (esri_json.features.getD []).map esri_feature_to_geojson }

/-- The list comprehension
`[ring for polygon in geojson_dict['coordinates'] for ring in polygon]`
of `convert_geojson_to_esri_geometry`'s MULTIPOLYGON branch; `none` models
the `TypeError` Python raises when an entry is not iterable. -/
def flatten_polygon_rings : List JVal → Option (List JVal)
  | [] => some []
  | .arr rs :: rest => (flatten_polygon_rings rest).map (fun tail => rs ++ tail)
  | _ => none

/-- `convert_geojson_to_esri_geometry` (lib/pg_to_agol.py, lines 74–101).
The declared `type` field is uppercased and dispatched on; an unsupported
type raises `ValueError`, modelled as `.error`.  Branches that index or
iterate the coordinates fail (as Python would raise) when the coordinate
value does not have the required shape. -/
def convert_geojson_to_esri_geometry (geojson_geom : GeoGeometry) : Except String EsriGeom :=
  let geom_type := py_upper geojson_geom.type
  if geom_type = "POINT" then
    match geojson_geom.coordinates with
    | .arr (.num x :: .num y :: _) => .ok (.point x y)
    | _ => .error "malformed POINT coordinates"
  else if geom_type = "MULTIPOINT" then
    match geojson_geom.coordinates with
    | .arr points => .ok (.multipoint points)
    | _ => .error "malformed MULTIPOINT coordinates"
  else if geom_type = "LINESTRING" then
    .ok (.polyline [geojson_geom.coordinates])
  else if geom_type = "MULTILINESTRING" then
    match geojson_geom.coordinates with
    | .arr paths => .ok (.polyline paths)
    | _ => .error "malformed MULTILINESTRING coordinates"
  else if geom_type = "POLYGON" then
    match geojson_geom.coordinates with
    | .arr rings => .ok (.polygon rings)
    | _ => .error "malformed POLYGON coordinates"
  else if geom_type = "MULTIPOLYGON" then
    match geojson_geom.coordinates with
    | .arr polygons =>
      match flatten_polygon_rings polygons with
      | some rings => .ok (.polygon rings)
      | none => .error "malformed MULTIPOLYGON coordinates"
    | _ => .error "malformed MULTIPOLYGON coordinates"
  else
    .error ("Unsupported geometry type: " ++ geom_type)

/-! ## Forward batch transfer pagination (lib/agol_to_pg.py, download_features) -/

/-- The exception message of the conversion call inside
`download_features`' loop (see `esri_to_geojson_call`). -/
def has_geometry_typeerror : String :=
  "TypeError: esri_to_geojson() got an unexpected keyword argument has_geometry"

/-- The conversion call of `download_features` (lib/agol_to_pg.py, lines
414–415): `esri_to_geojson(esri_json, has_geometry=has_geometry)`.  The
imported `esri_to_geojson` (lib/esri_to_geojson.py, line 20) takes a
single parameter and accepts no keyword arguments, so Python fails to
bind the call and raises `TypeError` before the function body ever runs,
whatever the argument values are; `.error` carries that exception. -/
def esri_to_geojson_call (_esri_json : EsriDoc) (_has_geometry : Bool) :
    Except String GeoDoc :=
  .error has_geometry_typeerror

/-- The observable outcome of one `download_features` run: the cumulative
imported total, the issued fetches as `(offset, count)` pairs, and the
exception the run re-raised, if any. -/
structure DownloadResult where
  total_imported : Nat
  fetch_calls : List (Nat × Nat)
  raised : Option String
deriving DecidableEq, Repr

/-- The pagination loop of `download_features` (lib/agol_to_pg.py, lines
402–454), with the network modelled as a response function
`fetch offset count` and the issued fetches recorded.  The loop stops
normally after a fetch failure or an absent or empty `features` array.  A
non-empty page is handed to `esri_to_geojson_call`; the whole loop body
sits in a `try` whose handler re-raises (lines 452–454), so that call's
exception aborts the run.  Were the call to return a converted page, its
feature count would advance the running total and the offset cursor,
terminating when the count falls short of the batch size (lines 437–447;
dead code in the program, kept here as in the source).  `fuel` bounds the
recursion; `none` marks exhausted fuel only, never an actual exit. -/
def download_features_loop (fetch : Nat → Nat → Option EsriDoc)
    (has_geometry : Bool) (batch_size : Nat) :
    Nat → Nat → Nat → List (Nat × Nat) → Option DownloadResult
  | 0, _, _, _ => none
  | fuel + 1, start, total_imported, fetch_calls =>
    let fetch_calls := fetch_calls ++ [(start, batch_size)]
    match fetch start batch_size with
    | none => some ⟨total_imported, fetch_calls, none⟩
    | some esri_json =>
      match esri_json.features with
      | none => some ⟨total_imported, fetch_calls, none⟩
      | some [] => some ⟨total_imported, fetch_calls, none⟩
      | some _ =>
        match esri_to_geojson_call esri_json has_geometry with
        | .error e => some ⟨total_imported, fetch_calls, some e⟩
        | .ok geojson =>
          let processed_features := geojson.features.length
          let total_imported := total_imported + processed_features
          let start := start + processed_features
          if processed_features < batch_size then
            some ⟨total_imported, fetch_calls, none⟩
          else
            download_features_loop fetch has_geometry batch_size fuel start
              total_imported fetch_calls

/-- `download_features`' run starts at offset 0 with a zero running total. -/
def download_features (fetch : Nat → Nat → Option EsriDoc)
    (has_geometry : Bool) (batch_size fuel : Nat) : Option DownloadResult :=
  download_features_loop fetch has_geometry batch_size fuel 0 0 []

/-- A page of `n` featureless records (attributes `{}`... an empty dict is
still counted by `len`; the geometry content is irrelevant to pagination). -/
def mk_features (n : Nat) : List EsriFeature :=
  List.replicate n ⟨some [], none⟩

/-- A source that returns pages of sizes [100, 100, 37] for batch size 100:
offsets 0 and 100 yield full pages, offset 200 a 37-feature page. -/
def three_page_fetch : Nat → Nat → Option EsriDoc := fun start _ =>
  if start = 0 then some ⟨some (mk_features 100)⟩
  else if start = 100 then some ⟨some (mk_features 100)⟩
  else if start = 200 then some ⟨some (mk_features 37)⟩
  else some ⟨some []⟩

/-! ## Table lifecycle (lib/sql.py, truncate_or_delete_table) -/

/-- A database error as `truncate_or_delete_table` distinguishes them:
`psycopg2.errors.FeatureNotSupported` (with its message) versus any other
exception. -/
inductive DBError where
  | featureNotSupported (msg : String)
  | otherError (msg : String)
deriving DecidableEq, Repr

/-- The behaviour of the destination table's database for one run:
what TRUNCATE raises (if anything) and what DELETE raises (if anything). -/
structure TableDB where
  truncateResult : Option DBError
  deleteResult : Option DBError
deriving DecidableEq, Repr

/-- A SQL statement issued by `truncate_or_delete_table`. -/
inductive SqlStmt where
  | truncateTable (schema table : String) (restartIdentity cascade : Bool)
  | deleteAll (schema table : String)
deriving DecidableEq, Repr

/-- What one call of `truncate_or_delete_table` did: the statements it
executed, the error it re-raised (if any), and whether it logged the
warning that sequence reset is unavailable after the DELETE fallback. -/
structure TruncOutcome where
  issued : List SqlStmt
  raised : Option DBError
  seqResetWarning : Bool
deriving DecidableEq, Repr

/-- The message fragment `truncate_or_delete_table` looks for in a
`FeatureNotSupported` error before falling back to DELETE. -/
def fk_truncate_msg : String :=
  "cannot truncate a table referenced in a foreign key constraint"

/-- `truncate_or_delete_table` (lib/sql.py, lines 28–89).  TRUNCATE is
attempted first (with RESTART IDENTITY / CASCADE per the flags); a
`FeatureNotSupported` whose message contains `fk_truncate_msg` triggers an
unconditional DELETE fallback (re-raising the delete's own error if that
fails, and logging the sequence-reset warning when `reset_sequence` was
requested); every other error is re-raised. -/
def truncate_or_delete_table (table_name schema : String)
    (cascade reset_sequence : Bool) (db : TableDB) : TruncOutcome :=
  let tq := SqlStmt.truncateTable schema table_name reset_sequence cascade
  match db.truncateResult with
  | none => ⟨[tq], none, false⟩
  | some (.featureNotSupported msg) =>
    if py_in_str fk_truncate_msg msg then
      match db.deleteResult with
      | none => ⟨[tq, .deleteAll schema table_name], none, reset_sequence⟩
      | some delete_error => ⟨[tq, .deleteAll schema table_name], some delete_error, false⟩
    else ⟨[tq], some (.featureNotSupported msg), false⟩
  | some (.otherError msg) => ⟨[tq], some (.otherError msg), false⟩

/-! ## Attachment synchronizer (lib/agol_to_pg.py, transfer_attachments) -/

/-- `os.path.splitext` for plain file names (no directory separators):
split at the last dot, unless every character before that dot is itself a
dot (so ".bashrc" has no extension). -/
def last_dot_index : List Char → Option Nat
  | [] => none
  | c :: rest =>
    match last_dot_index rest with
    | some i => some (i + 1)
    | none => if c = '.' then some 0 else none

/-- `os.path.splitext(name)` as `transfer_attachments` uses it on the
stored display name. -/
def splitext (s : String) : String × String :=
  let cs := s.data
  match last_dot_index cs with
  | none => (s, "")
  | some i =>
    if (cs.take i).all (fun c => c = '.') then (s, "")
    else (String.mk (cs.take i), String.mk (cs.drop i))

/-- `re.sub(r'[^a-zA-Z0-9]', '_', file_name)`: every character that is not
an ASCII letter or digit becomes an underscore. -/
def sanitize_attachment_stem (s : String) : String :=
  String.mk (s.data.map (fun c => if c.isAlphanum then c else '_'))

/-- One row of the attachment table as `transfer_attachments` selects it:
`SELECT objectid, attachmentid, name, url`. -/
structure AttachRow where
  objectid : Nat
  attachmentid : Nat
  name : String
  url : String

/-- The expected bucket object name `{table}/{attachmentId}{extension}`
(extension taken from the stored display name). -/
def attach_target (table : String) (row : AttachRow) : String :=
  table ++ "/" ++ toString row.attachmentid ++ (splitext row.name).2

/-- The sanitized display name written back to the row: alphanumeric-and-
underscore stem plus the original extension. -/
def attach_file_name (row : AttachRow) : String :=
  sanitize_attachment_stem (splitext row.name).1 ++ (splitext row.name).2

/-- The canonical bucket URL written back to the row. -/
def attach_bucket_url (bucket_name table : String) (row : AttachRow) : String :=
  "https://storage.cloud.google.com/" ++ bucket_name ++ "/" ++ attach_target table row

/-- The reconciliation state while `transfer_attachments` streams rows:
the bucket objects not yet matched to a row (the Python `blobs` dict, from
which matches are `pop`ped), the uploads performed (`_stream_to_gcs`
calls, by target name), and the row updates executed
(objectid, new url, new name). -/
structure SyncState where
  blobs : List String
  uploads : List String
  updates : List (Nat × String × String)

/-- The per-row body of `transfer_attachments`' cursor loop
(lib/agol_to_pg.py, lines 675–704): pop the expected object name from the
bucket map, streaming the attachment into a new object only when it was
absent, then rewrite the row's url and name unconditionally. -/
def process_attachment_row (table bucket_name : String) (st : SyncState)
    (row : AttachRow) : SyncState :=
  let target := attach_target table row
  let st :=
    if st.blobs.contains target then
      { st with blobs := st.blobs.erase target }
    else
      { st with uploads := st.uploads ++ [target] }
  { st with
    updates := st.updates ++ [(row.objectid, attach_bucket_url bucket_name table row,
      attach_file_name row)] }

/-- `transfer_attachments` (lib/agol_to_pg.py, lines 632–719) over the
listed bucket objects (the names under the table prefix) and the streamed
attachment rows; after all rows are processed every bucket object still
unmatched is deleted.  Returns the final state and the deleted names. -/
def transfer_attachments (table bucket_name : String) (bucket_blobs : List String)
    (rows : List AttachRow) : SyncState × List String :=
  let final := rows.foldl (process_attachment_row table bucket_name) ⟨bucket_blobs, [], []⟩
  (final, final.blobs)

/-! ## Reverse transfer edit builder (lib/pg_to_agol.py, prepare_features) -/

/-- A feature as `fetch_data_from_postgis` builds it for the reverse
transfer: `{"attributes": {...}, "geometry": esri_geom}`. -/
structure PGFeature where
  attributes : List (String × JVal)
  geometry : EsriGeom

/-- The in-place datetime conversion of `prepare_features`: a `datetime`
attribute value becomes its `isoformat()` string; everything else is
untouched. -/
def iso_convert_value : JVal → JVal
  | .dtm d => .str d.isoformat
  | v => v

/-- `prepare_features` (lib/pg_to_agol.py, lines 144–158): each outgoing
edit keeps exactly the attributes whose key does not lowercase to
`"objectid"` and is not in `ignore_fields`, converts `datetime` values to
ISO strings, and copies the geometry through. -/
def prepare_features (raw_features : List PGFeature) (ignore_fields : List String) :
    List PGFeature :=
  raw_features.map fun item =>
    let attributes := item.attributes.filter
      (fun kv => py_lower kv.1 != "objectid" && !(ignore_fields.contains kv.1))
    { attributes := attributes.map (fun kv => (kv.1, iso_convert_value kv.2))
      geometry := item.geometry }

/-! ## Backup archiver (lib/backup.py) -/

/-- `MAX_UPLOAD_RETRIES` (lib/backup.py, line 42). -/
def MAX_UPLOAD_RETRIES : Nat := 3

/-- `RETRY_DELAY_SECONDS` (lib/backup.py, line 43). -/
def RETRY_DELAY_SECONDS : Nat := 5

/-- The `for attempt in range(1, retries + 1)` loop of `upload_with_retry`
(lib/backup.py, lines 59–72), with the blob upload modelled as a function
from the attempt number to success.  Returns (result, attempts made,
sleeps performed); the result is `none` only when the range is empty
(`retries` < `attempt`), mirroring Python's implicit `None` fall-through. -/
def upload_attempt_loop (upload_ok : Nat → Bool) (retries attempt : Nat)
    (sleeps : List Nat) : Option Bool × Nat × List Nat :=
  if attempt ≤ retries then
    if upload_ok attempt then (some true, attempt, sleeps)
    else if attempt < retries then
      upload_attempt_loop upload_ok retries (attempt + 1) (sleeps ++ [RETRY_DELAY_SECONDS])
    else (some false, attempt, sleeps)
  else (none, attempt - 1, sleeps)
termination_by retries + 1 - attempt

/-- `upload_with_retry(blob, local_path, retries)`. -/
def upload_with_retry (upload_ok : Nat → Bool) (retries : Nat) :
    Option Bool × Nat × List Nat :=
  upload_attempt_loop upload_ok retries 1 []

/-- `sanitize_name` (lib/backup.py, lines 46–48):
`re.sub(r'[^A-Za-z0-9_]', '_', name)`. -/
def sanitize_name (name : String) : String :=
  String.mk (name.data.map (fun c => if c.isAlphanum || c = '_' then c else '_'))

/-- The `%b` month abbreviations of `datetime.strptime`. -/
def month_from_abbrev : String → Option Nat
  | "Jan" => some 1
  | "Feb" => some 2
  | "Mar" => some 3
  | "Apr" => some 4
  | "May" => some 5
  | "Jun" => some 6
  | "Jul" => some 7
  | "Aug" => some 8
  | "Sep" => some 9
  | "Oct" => some 10
  | "Nov" => some 11
  | "Dec" => some 12
  | _ => none

/-- `datetime.strptime(date_str, '%d_%b_%Y')` (day-of-month bounds checked
as strptime does; per-month day counts and leap years are not modelled, as
no claim distinguishes them).  A parsed archive date has a zero time of
day. -/
def parse_archive_date (date_str : String) : Option DateTime :=
  match py_split '_' date_str with
  | [d, m, y] =>
    match py_digits_to_nat d, month_from_abbrev m, py_digits_to_nat y with
    | some day, some month, some year =>
      if 1 ≤ day ∧ day ≤ 31 then some ⟨year, month, day, 0, 0, 0⟩ else none
    | _, _, _ => none
  | _ => none

/-- `get_last_modified_date` (lib/backup.py, lines 92–109): scan every
bucket object whose name contains `base_name`, parse
`'_'.join(name_parts[-3:]).replace('.gdb.zip', '')` with `%d_%b_%Y`, and
keep the latest date that parses. -/
def get_last_modified_date (bucket_blobs : List String) (base_name : String) :
    Option DateTime :=
  bucket_blobs.foldl
    (fun latest_date filename =>
      if py_in_str base_name filename then
        let name_parts := py_split '_' filename
        let date_str := py_replace (String.intercalate "_"
          (name_parts.drop (name_parts.length - 3))) ".gdb.zip" ""
        match parse_archive_date date_str with
        | some file_date =>
          match latest_date with
          | none => some file_date
          | some latest => if latest.ltb file_date then some file_date else latest_date
        | none => latest_date
      else latest_date)
    none

/-- A catalog item as `download_as_fgdb` consumes it.  `modified` is the
`datetime` the code obtains via `datetime.fromtimestamp(item.modified / 1000)`;
the epoch-milliseconds-to-datetime conversion itself is outside the
claims, so the already-converted value is the model's input. -/
structure GisItem where
  title : String
  modified : DateTime
deriving DecidableEq, Repr

/-- What processing one item in `download_as_fgdb`'s loop did: how many
`item.export` calls and how many `upload_with_retry` invocations it made,
and whether the item ended on the added or the skipped list. -/
structure ItemOutcome where
  exports : Nat
  uploads : Nat
  added : Bool
  skipped : Bool
deriving DecidableEq, Repr

/-- The per-item body of `download_as_fgdb`'s loop (lib/backup.py, lines
119–156): skip (zero exports, zero uploads) when a last archive date
exists for the sanitized title and the item's modified datetime is not
later; otherwise export once and invoke the retrying upload once
(`upload_ok` says whether that upload eventually succeeded; the export
itself succeeding is assumed, the exception path being outside the
claims). -/
def process_backup_item (bucket_blobs : List String) (upload_ok : Bool)
    (item : GisItem) : ItemOutcome :=
  let sanitized_name := sanitize_name item.title
  let last_backup_date := get_last_modified_date bucket_blobs sanitized_name
  match last_backup_date with
  | some d =>
    if item.modified.leb d then ⟨0, 0, false, true⟩
    else ⟨1, 1, upload_ok, !upload_ok⟩
  | none => ⟨1, 1, upload_ok, !upload_ok⟩

/-- `download_as_fgdb` (lib/backup.py, lines 111–158) restricted to its
added/skipped bookkeeping: the loop stops after `max_items` items, and
each processed item lands on the added list exactly when it was exported
and its upload succeeded. -/
def download_as_fgdb (bucket_blobs : List String) (upload_ok : Bool)
    (items : List GisItem) (max_items : Nat) : List String × List String :=
  (items.take max_items).foldl
    (fun acc item =>
      let oc := process_backup_item bucket_blobs upload_ok item
      if oc.added then (acc.1 ++ [item.title], acc.2) else (acc.1, acc.2 ++ [item.title]))
    ([], [])

/-- The extension dispatch of `delete_old_archives` (lib/backup.py, lines
167–174): strip `.gdb.zip` or `.zip`, anything else is skipped. -/
def archive_base_name (filename : String) : Option String :=
  if py_endswith filename ".gdb.zip" then some (filename.dropRight 8)
  else if py_endswith filename ".zip" then some (filename.dropRight 4)
  else none

/-- `layer_name = '_'.join(name_parts[:-3])`. -/
def archive_layer_name (base_name : String) : String :=
  let name_parts := py_split '_' base_name
  String.intercalate "_" (name_parts.take (name_parts.length - 3))

/-- `date_str = '_'.join(name_parts[-3:])`. -/
def archive_date_str (base_name : String) : String :=
  let name_parts := py_split '_' base_name
  String.intercalate "_" (name_parts.drop (name_parts.length - 3))

/-- The date a stored archive object's name embeds, when its extension is
recognized and the date parses. -/
def archive_file_date (filename : String) : Option DateTime :=
  (archive_base_name filename).bind (fun b => parse_archive_date (archive_date_str b))

/-- `delete_old_archives` (lib/backup.py, lines 160–188), returning the
names it deleted.  `cutoff_date` is `now - timedelta(days=duration)` as the
code computes it; the deletion test is the code's literal condition
`file_date < cutoff_date and (layer_name not in added_files or
file_date < cutoff_date)`. -/
def delete_old_archives (bucket_blobs : List String) (cutoff_date : DateTime)
    (added_files : List String) : List String :=
  bucket_blobs.filter fun filename =>
    match archive_base_name filename with
    | none => false
    | some base_name =>
      match parse_archive_date (archive_date_str base_name) with
      | none => false
      | some file_date =>
        file_date.ltb cutoff_date &&
          (!(added_files.contains (archive_layer_name base_name))
            || file_date.ltb cutoff_date)

/-! ## Helper lemmas -/

/-- Folding the MultiPolygon wrapping `[[ring] for ring in rings]` back
through the MULTIPOLYGON flattening recovers the ring list. -/
lemma flatten_polygon_rings_map (rs : List JVal) :
    flatten_polygon_rings (rs.map (fun ring => JVal.arr [ring])) = some rs := by
  induction rs with
  | nil => rfl
  | cons r rest ih => simp [flatten_polygon_rings, ih]

/-- The literal deletion condition `file_date < cutoff_date and
(layer_name not in added_files or file_date < cutoff_date)` collapses to
`file_date < cutoff_date`, so pruning is one filter that ignores the
added set. -/
lemma delete_old_archives_as_filter (bucket_blobs : List String) (cutoff_date : DateTime)
    (added_files : List String) :
    delete_old_archives bucket_blobs cutoff_date added_files
      = bucket_blobs.filter (fun filename =>
          match archive_file_date filename with
          | some d => d.ltb cutoff_date
          | none => false) := by
  apply List.filter_congr
  intro filename _
  unfold archive_file_date
  cases hb : archive_base_name filename with
  | none => rfl
  | some base_name =>
    simp only [hb, Option.some_bind]
    cases hp : parse_archive_date (archive_date_str base_name) with
    | none => rfl
    | some file_date =>
      cases h : file_date.ltb cutoff_date <;> simp [h]

/-- Processing one attachment row only removes its (matched) target from
the remaining-blobs map; uploads and updates never touch it. -/
lemma process_attachment_row_blobs (table bucket_name : String) (st : SyncState)
    (row : AttachRow) :
    (process_attachment_row table bucket_name st row).blobs
      = if st.blobs.contains (attach_target table row) then
          st.blobs.erase (attach_target table row)
        else st.blobs := by
  by_cases h : attach_target table row ∈ st.blobs <;>
    simp [process_attachment_row, h]

/-- The remaining-blobs component of the row fold is the plain
erase-matched-targets fold. -/
lemma transfer_blobs_fold (table bucket_name : String) (rows : List AttachRow) :
    ∀ st : SyncState,
      (rows.foldl (process_attachment_row table bucket_name) st).blobs
        = rows.foldl (fun bs row =>
            if bs.contains (attach_target table row) then
              bs.erase (attach_target table row)
            else bs) st.blobs := by
  induction rows with
  | nil => intro st; rfl
  | cons r rs ih =>
    intro st
    simp only [List.foldl_cons]
    rw [ih]
    congr 1
    rw [process_attachment_row_blobs]

/-- A bucket object (names are distinct, as in a bucket listing) survives
the erase-matched-targets fold exactly when no row targets it. -/
lemma fold_erase_mem (table : String) (rows : List AttachRow) :
    ∀ (bs : List String), bs.Nodup → ∀ b : String,
      (b ∈ rows.foldl (fun bs row =>
          if bs.contains (attach_target table row) then
            bs.erase (attach_target table row)
          else bs) bs
        ↔ b ∈ bs ∧ ∀ row ∈ rows, attach_target table row ≠ b) := by
  induction rows with
  | nil => simp
  | cons r rs ih =>
    intro bs hnd b
    simp only [List.foldl_cons]
    have hstep : (if bs.contains (attach_target table r) then
          bs.erase (attach_target table r) else bs)
        = bs.filter (· != attach_target table r) := by
      by_cases h : attach_target table r ∈ bs
      · rw [if_pos (by simpa using h), List.Nodup.erase_eq_filter hnd]
      · rw [if_neg (by simpa using h)]
        symm
        rw [List.filter_eq_self]
        intro a ha
        exact bne_iff_ne.mpr (fun he => h (he ▸ ha))
    rw [hstep, ih _ (hnd.filter _) b]
    simp only [List.mem_filter, bne_iff_ne, ne_eq, decide_not, Bool.not_eq_eq_eq_not,
      Bool.not_true, decide_eq_false_iff_not, List.mem_cons, forall_eq_or_imp]
    constructor
    · rintro ⟨⟨hb, hne⟩, hall⟩
      exact ⟨hb, fun h => hne h.symm, hall⟩
    · rintro ⟨hb, hne, hall⟩
      exact ⟨⟨hb, fun h => hne h.symm⟩, hall⟩

/-! ## Claim theorems -/

/-- Claim C1 (code bug): the pagination property fails on the code as
written.  `download_features` calls
`esri_to_geojson(esri_json, has_geometry=has_geometry)` although the
imported function takes a single parameter, so every non-empty page
raises `TypeError` and the run aborts right after that one fetch, with no
cursor advance; in particular the [100, 100, 37] source with batch size
100 yields exactly one fetch at offset 0, cumulative total 0 and the
re-raised `TypeError` — not three fetches and total 237 as the spec (the
evident intent of the loop) describes. -/
theorem download_features_typeerror_abort :
    (∀ (fetch : Nat → Nat → Option EsriDoc) (has_geometry : Bool)
        (batch fuel start total : Nat) (calls : List (Nat × Nat))
        (doc : EsriDoc) (fs : List EsriFeature),
      fetch start batch = some doc → doc.features = some fs → fs ≠ [] →
      download_features_loop fetch has_geometry batch (fuel + 1) start total calls
        = some ⟨total, calls ++ [(start, batch)], some has_geometry_typeerror⟩) ∧
    download_features three_page_fetch true 100 10
      = some ⟨0, [(0, 100)], some has_geometry_typeerror⟩ := by
  constructor
  · intro fetch has_geometry batch fuel start total calls doc fs hfetch hfeat hne
    cases fs with
    | nil => exact absurd rfl hne
    | cons f rest =>
      simp only [download_features_loop, hfetch, hfeat]
      rfl
  · decide

/-- Claim C2: converting any native geometry to the interchange form with
the per-feature geometry mapping of `esri_to_geojson` and back with
`convert_geojson_to_esri_geometry` yields the original geometry, including
the Polygon/MultiPolygon ring folding (several rings become a MultiPolygon
of single-ring polygons and flatten back to the same ring list). -/
theorem geometry_roundtrip (g : EsriGeom) :
    convert_geojson_to_esri_geometry (esri_geometry_to_geojson g) = .ok g := by
  cases g with
  | point x y => rfl
  | multipoint points => rfl
  | polyline paths =>
    match paths with
    | [] => rfl
    | [p] => rfl
    | p :: q :: rest => rfl
  | polygon rings =>
    match rings with
    | [] => rfl
    | [r] => rfl
    | r :: s :: rest =>
      show convert_geojson_to_esri_geometry
        ⟨"MultiPolygon", .arr ((r :: s :: rest).map (fun ring => .arr [ring]))⟩
          = .ok (.polygon (r :: s :: rest))
      simp [convert_geojson_to_esri_geometry, flatten_polygon_rings,
        flatten_polygon_rings_map, py_upper]

/-- Claim C5 counterexample: a feature with absent geometry is mapped to
an output feature whose `geometry` key is present, holding the placeholder
`{"type": "", "coordinates": []}` — not to a feature with absent geometry,
so "absent maps to absent" fails on the code. -/
theorem absent_geometry_placeholder_cex :
    (esri_to_geojson ⟨some [⟨some [("a", .num 1)], none⟩]⟩).features
      = [⟨"Feature", [("a", .num 1)], some empty_geometry⟩]
    ∧ some empty_geometry ≠ (none : Option GeoGeometry) :=
  ⟨rfl, fun h => Option.noConfusion h⟩

/-- Claim C5 (amended): a feature with absent geometry is mapped to an
output feature whose geometry value is the empty placeholder
`{"type": "", "coordinates": []}` (the geometry key is present, not
absent). -/
theorem absent_geometry_maps_to_placeholder (f : EsriFeature) (h : f.geometry = none) :
    (esri_feature_to_geojson f).geometry = some empty_geometry := by
  simp [esri_feature_to_geojson, h]

/-- Claim C5 witness: a concrete geometry-less feature gets the
placeholder geometry. -/
theorem absent_geometry_maps_to_placeholder_witness :
    (esri_feature_to_geojson ⟨some [], none⟩).geometry = some empty_geometry :=
  absent_geometry_maps_to_placeholder ⟨some [], none⟩ rfl

/-- Claim C10: `esri_to_geojson` always returns a document of type
"FeatureCollection" with exactly one output feature per input feature in
the same order, each output feature's properties being the corresponding
input feature's attributes unchanged (`{}` when the attributes key is
absent); an empty or missing input features list yields an empty output
features list (the length equation at `doc.features.getD [] = []`). -/
theorem esri_to_geojson_shape (doc : EsriDoc) :
    (esri_to_geojson doc).type = "FeatureCollection" ∧
    (esri_to_geojson doc).features.length = (doc.features.getD []).length ∧
    (∀ i (h1 : i < (esri_to_geojson doc).features.length)
        (h2 : i < (doc.features.getD []).length),
      ((esri_to_geojson doc).features.get ⟨i, h1⟩).properties
        = ((doc.features.getD []).get ⟨i, h2⟩).attributes.getD []) := by
  refine ⟨rfl, by simp [esri_to_geojson], ?_⟩
  intro i h1 h2
  simp [esri_to_geojson, esri_feature_to_geojson]

/-- Claim C10 witness: a one-feature document keeps its attributes as the
output properties inside a "FeatureCollection". -/
theorem esri_to_geojson_shape_witness :
    (esri_to_geojson ⟨some [⟨some [("k", JVal.num 2)], none⟩]⟩).type = "FeatureCollection" ∧
    (esri_to_geojson ⟨some [⟨some [("k", JVal.num 2)], none⟩]⟩).features.length = 1 :=
  ⟨(esri_to_geojson_shape _).1, (esri_to_geojson_shape _).2.1.trans rfl⟩

/-- Claim C7: with the configured `MAX_UPLOAD_RETRIES = 3`, an upload that
fails twice and then succeeds returns success after exactly 3 attempts
with the configured `RETRY_DELAY_SECONDS` delay between consecutive
attempts (two sleeps), and an upload that always fails returns failure
after exactly `MAX_UPLOAD_RETRIES` attempts. -/
theorem upload_with_retry_spec :
    (∀ upload_ok : Nat → Bool, upload_ok 1 = false → upload_ok 2 = false →
      upload_ok 3 = true →
      upload_with_retry upload_ok MAX_UPLOAD_RETRIES
        = (some true, 3, [RETRY_DELAY_SECONDS, RETRY_DELAY_SECONDS])) ∧
    (∀ upload_ok : Nat → Bool, (∀ a, upload_ok a = false) →
      upload_with_retry upload_ok MAX_UPLOAD_RETRIES
        = (some false, MAX_UPLOAD_RETRIES, [RETRY_DELAY_SECONDS, RETRY_DELAY_SECONDS])) := by
  constructor
  · intro f h1 h2 h3
    simp [upload_with_retry, upload_attempt_loop, h1, h2, h3, MAX_UPLOAD_RETRIES]
  · intro f hf
    simp [upload_with_retry, upload_attempt_loop, hf, MAX_UPLOAD_RETRIES]

/-- Claim C7 witness: the fails-twice-then-succeeds and always-fails
scenarios at concrete upload functions. -/
theorem upload_with_retry_witness :
    upload_with_retry (fun a => decide (3 ≤ a)) MAX_UPLOAD_RETRIES
      = (some true, 3, [RETRY_DELAY_SECONDS, RETRY_DELAY_SECONDS]) ∧
    upload_with_retry (fun _ => false) MAX_UPLOAD_RETRIES
      = (some false, MAX_UPLOAD_RETRIES, [RETRY_DELAY_SECONDS, RETRY_DELAY_SECONDS]) :=
  ⟨upload_with_retry_spec.1 _ rfl rfl rfl, upload_with_retry_spec.2 _ (fun _ => rfl)⟩

/-- Claim C3: when TRUNCATE fails with a `FeatureNotSupported` error whose
message contains the foreign-key-truncation fragment and the fallback
DELETE succeeds, `truncate_or_delete_table` returns successfully (raises
nothing) having issued the unconditional row DELETE, and reports the
sequence-reset-unavailable warning whenever a sequence reset was
requested; a `FeatureNotSupported` error without that fragment and any
other database error are re-raised as fatal. -/
theorem truncate_or_delete_spec :
    ∀ (table_name schema : String) (cascade reset_sequence : Bool) (db : TableDB),
      (∀ msg, db.truncateResult = some (.featureNotSupported msg) →
        py_in_str fk_truncate_msg msg = true → db.deleteResult = none →
        truncate_or_delete_table table_name schema cascade reset_sequence db
          = ⟨[.truncateTable schema table_name reset_sequence cascade,
              .deleteAll schema table_name], none, reset_sequence⟩) ∧
      (∀ msg, db.truncateResult = some (.featureNotSupported msg) →
        py_in_str fk_truncate_msg msg = false →
        truncate_or_delete_table table_name schema cascade reset_sequence db
          = ⟨[.truncateTable schema table_name reset_sequence cascade],
              some (.featureNotSupported msg), false⟩) ∧
      (∀ msg, db.truncateResult = some (.otherError msg) →
        truncate_or_delete_table table_name schema cascade reset_sequence db
          = ⟨[.truncateTable schema table_name reset_sequence cascade],
              some (.otherError msg), false⟩) := by
  intro table_name schema cascade reset_sequence db
  refine ⟨?_, ?_, ?_⟩
  · intro msg ht hin hd
    simp [truncate_or_delete_table, ht, hin, hd]
  · intro msg ht hin
    simp [truncate_or_delete_table, ht, hin]
  · intro msg ht
    simp [truncate_or_delete_table, ht]

/-- Claim C3 witness: the foreign-key message triggers the DELETE
fallback with the warning, at a concrete table. -/
theorem truncate_or_delete_witness :
    truncate_or_delete_table "roads" "public" true true
      ⟨some (.featureNotSupported fk_truncate_msg), none⟩
      = ⟨[.truncateTable "public" "roads" true true, .deleteAll "public" "roads"],
          none, true⟩ :=
  (truncate_or_delete_spec "roads" "public" true true _).1 fk_truncate_msg rfl (by decide) rfl

/-- Claim C6 counterexample: `prepare_features` does not strip the
primary-key attribute "whatever name that primary-key column has" — a row
whose primary-key column is named `pk_id` (with an empty ignore list)
keeps `pk_id` in the outgoing edit; only names lowercasing to
`"objectid"` are removed. -/
theorem prepare_features_keeps_primary_key_cex :
    prepare_features [⟨[("pk_id", .num 1), ("name", .str "a")], .point 0 0⟩] []
      = [⟨[("pk_id", .num 1), ("name", .str "a")], .point 0 0⟩] := rfl

/-- Claim C6 (amended): `prepare_features` strips exactly the attributes
whose name lowercases to `"objectid"` or appears in the ignore list — so
an attribute literally named `objectid` (in any letter case) never reaches
an outgoing edit, every surviving attribute passed neither test, and every
attribute passing neither test survives (datetimes ISO-converted); the
primary-key column is stripped only when its name happens to lowercase to
`"objectid"` or is explicitly ignored. -/
theorem prepare_features_strips_objectid :
    ∀ (raw : List PGFeature) (ignore_fields : List String),
      (prepare_features raw ignore_fields).length = raw.length ∧
      (∀ feat ∈ prepare_features raw ignore_fields, ∀ kv ∈ feat.attributes,
        py_lower kv.1 ≠ "objectid" ∧ kv.1 ∉ ignore_fields) ∧
      (∀ i (h1 : i < (prepare_features raw ignore_fields).length) (h2 : i < raw.length),
        ∀ k v, (k, v) ∈ (raw.get ⟨i, h2⟩).attributes → py_lower k ≠ "objectid" →
          k ∉ ignore_fields →
          (k, iso_convert_value v)
            ∈ ((prepare_features raw ignore_fields).get ⟨i, h1⟩).attributes) := by
  intro raw ignore_fields
  refine ⟨by simp [prepare_features], ?_, ?_⟩
  · intro feat hfeat kv hkv
    simp only [prepare_features, List.mem_map] at hfeat
    obtain ⟨item, _, rfl⟩ := hfeat
    simp only [List.mem_map] at hkv
    obtain ⟨kv', hkv', rfl⟩ := hkv
    have := List.of_mem_filter hkv'
    simp only [Bool.and_eq_true, bne_iff_ne, Bool.not_eq_true'] at this
    obtain ⟨hne, hcont⟩ := this
    refine ⟨hne, fun hmem => ?_⟩
    simp only [List.contains_eq_any_beq, List.any_eq_false, beq_iff_eq] at hcont
    exact hcont _ hmem rfl
  · intro i h1 h2 k v hmem hlow hig
    simp only [prepare_features, List.get_eq_getElem, List.getElem_map]
    refine List.mem_map.mpr ⟨(k, v), ?_, rfl⟩
    refine List.mem_filter.mpr ⟨by simpa using hmem, ?_⟩
    simp only [Bool.and_eq_true, bne_iff_ne, Bool.not_eq_true']
    refine ⟨hlow, ?_⟩
    simp only [List.contains_eq_any_beq, List.any_eq_false, beq_iff_eq]
    exact fun x hx hxk => hig (hxk ▸ hx)

/-- Claim C6 witness: an attribute named `ok` with empty ignore list
survives into the outgoing edit. -/
theorem prepare_features_strips_objectid_witness :
    ("ok", iso_convert_value (JVal.num 3))
      ∈ ((prepare_features [⟨[("ok", JVal.num 3)], .point 0 0⟩] []).get
          ⟨0, by decide⟩).attributes :=
  (prepare_features_strips_objectid [⟨[("ok", JVal.num 3)], .point 0 0⟩] []).2.2 0
    (by decide) (by decide) "ok" (JVal.num 3) (by simp) (by decide) (by simp)

/-- Claim C8: an item whose modified datetime is not later than the last
archive date parsed from the bucket object names for its sanitized title
is skipped with zero export calls and zero upload invocations; an item
with a strictly later modified datetime, or with no prior archive at all,
is exported once and handed to the retrying upload exactly once. -/
theorem backup_skip_rule :
    ∀ (bucket_blobs : List String) (upload_ok : Bool) (item : GisItem),
      (∀ d, get_last_modified_date bucket_blobs (sanitize_name item.title) = some d →
        item.modified.leb d = true →
        process_backup_item bucket_blobs upload_ok item = ⟨0, 0, false, true⟩) ∧
      (∀ d, get_last_modified_date bucket_blobs (sanitize_name item.title) = some d →
        item.modified.leb d = false →
        process_backup_item bucket_blobs upload_ok item = ⟨1, 1, upload_ok, !upload_ok⟩) ∧
      (get_last_modified_date bucket_blobs (sanitize_name item.title) = none →
        process_backup_item bucket_blobs upload_ok item = ⟨1, 1, upload_ok, !upload_ok⟩) := by
  intro bucket_blobs upload_ok item
  refine ⟨?_, ?_, ?_⟩
  · intro d hd hle
    simp [process_backup_item, hd, hle]
  · intro d hd hle
    simp [process_backup_item, hd, hle]
  · intro hd
    simp [process_backup_item, hd]

/-- Claim C8 witness: against a bucket holding
`Roads_Layer_01_Jan_2024.gdb.zip` (parsed archive date 1 Jan 2024), an
item last modified 31 Dec 2023 is skipped; an item modified 1 Jun 2024,
and an item with no archive at all, are exported and uploaded once. -/
theorem backup_skip_rule_witness :
    process_backup_item ["Roads_Layer_01_Jan_2024.gdb.zip"] true
        ⟨"Roads Layer", ⟨2023, 12, 31, 0, 0, 0⟩⟩ = ⟨0, 0, false, true⟩ ∧
    process_backup_item ["Roads_Layer_01_Jan_2024.gdb.zip"] true
        ⟨"Roads Layer", ⟨2024, 6, 1, 12, 0, 0⟩⟩ = ⟨1, 1, true, false⟩ ∧
    process_backup_item [] true ⟨"New Item", ⟨2024, 6, 1, 12, 0, 0⟩⟩
      = ⟨1, 1, true, false⟩ :=
  ⟨(backup_skip_rule _ _ _).1 ⟨2024, 1, 1, 0, 0, 0⟩ (by decide) (by decide),
   (backup_skip_rule _ _ _).2.1 ⟨2024, 1, 1, 0, 0, 0⟩ (by decide) (by decide),
   (backup_skip_rule _ _ _).2.2 (by decide)⟩

/-- Claim C9: `delete_old_archives` deletes an object exactly when its
name's extension is recognized, the embedded date parses, and that date is
strictly older than the cutoff; the added-set conjunct of the code's
condition is redundant — the deleted set is identical for every added
list. -/
theorem delete_old_archives_spec :
    ∀ (bucket_blobs : List String) (cutoff_date : DateTime) (added added' : List String),
      delete_old_archives bucket_blobs cutoff_date added
        = delete_old_archives bucket_blobs cutoff_date added' ∧
      (∀ filename, filename ∈ delete_old_archives bucket_blobs cutoff_date added ↔
        filename ∈ bucket_blobs ∧
          ∃ d, archive_file_date filename = some d ∧ d.ltb cutoff_date = true) := by
  intro bucket_blobs cutoff_date added added'
  constructor
  · rw [delete_old_archives_as_filter, delete_old_archives_as_filter]
  · intro filename
    rw [delete_old_archives_as_filter, List.mem_filter]
    refine and_congr_right fun _ => ?_
    cases h : archive_file_date filename with
    | none => simp
    | some d => simp

/-- Claim C4: a row whose expected object name already exists in the
bucket causes zero upload calls but its stored url and name are still
rewritten to the canonical bucket URL and sanitized name; and a bucket
object under the prefix is deleted at the end exactly when no processed
row's target matched it. -/
theorem transfer_attachments_spec :
    (∀ (table bucket_name : String) (st : SyncState) (row : AttachRow),
      attach_target table row ∈ st.blobs →
      (process_attachment_row table bucket_name st row).uploads = st.uploads ∧
      (process_attachment_row table bucket_name st row).updates
        = st.updates ++ [(row.objectid, attach_bucket_url bucket_name table row,
            attach_file_name row)]) ∧
    (∀ (table bucket_name : String) (bucket_blobs : List String) (rows : List AttachRow),
      bucket_blobs.Nodup → ∀ b : String,
        b ∈ (transfer_attachments table bucket_name bucket_blobs rows).2 ↔
          b ∈ bucket_blobs ∧ ∀ row ∈ rows, attach_target table row ≠ b) := by
  constructor
  · intro table bucket_name st row hmem
    constructor <;> simp [process_attachment_row, hmem]
  · intro table bucket_name bucket_blobs rows hnd b
    show b ∈ (rows.foldl (process_attachment_row table bucket_name)
      ⟨bucket_blobs, [], []⟩).blobs ↔ _
    rw [transfer_blobs_fold]
    exact fold_erase_mem table rows bucket_blobs hnd b

/-- Claim C4 witness: a row targeting the already-present object
`tbl/7.jpg` performs no upload, and the unmatched object `tbl/9.png` is
deleted by the run. -/
theorem transfer_attachments_spec_witness :
    (process_attachment_row "tbl" "bkt" ⟨["tbl/7.jpg"], [], []⟩
        ⟨1, 7, "photo 1.jpg", "url"⟩).uploads = [] ∧
    "tbl/9.png" ∈ (transfer_attachments "tbl" "bkt" ["tbl/7.jpg", "tbl/9.png"]
        [⟨1, 7, "photo 1.jpg", "url"⟩]).2 :=
  ⟨(transfer_attachments_spec.1 "tbl" "bkt" _ _ (by decide)).1,
   (transfer_attachments_spec.2 "tbl" "bkt" _ _ (by decide) _).mpr
     ⟨by decide, by intro row hr; simp at hr; subst hr; decide⟩⟩
